import Mathlib

/-!
# Verification of the spotify-ad-mute control loop

A shallow embedding of `src/spotify-ad-mute.py`.  The external screen
matcher (`pyautogui.locateCenterOnScreen`) is modelled by an explicit
per-call outcome (`MatcherOutcome`): a match at a position, no match, or a
raised exception (an absent template file makes the matcher raise, which
`locate_image` catches).  The actuator `set_spotify_mute` is modelled, for
the control loop, by a per-cycle boolean giving the success value it
returns; its native strategy `_mute_via_pycaw` is additionally embedded
concretely over a list of audio sessions.  One iteration of the
`MuteAd.run` while-loop becomes the function `MuteAd.runCycle`, which
returns the successor state, the list of actuator-call targets issued in
that iteration (in order) and the slept interval; `MuteAd.runTrace`
iterates it over a finite list of per-cycle environments.
-/

/-- Outcome of one call to the underlying matching primitive
(`pyautogui.locateCenterOnScreen`) on one template in one cycle: a match
centred at `(x, y)`, no match, or an exception (e.g. the template file is
absent, or the matcher's own `ImageNotFoundException`). -/
inductive MatcherOutcome where
  | found (x y : Int)
  | notFound
  | raises
deriving DecidableEq, Repr

/-- `locate_image` (line 117): returns the centre `(x, y)` of a match, or
`None`; every exception raised by the matching primitive is caught and
converted to `None`. -/
def locate_image : MatcherOutcome → Option (Int × Int)
  | .found x y => some (x, y)
  | .notFound => none
  | .raises => none

/-- `check_for_ad` (line 139): position of the first matching ad image in
priority order, or `None`. -/
def check_for_ad : List MatcherOutcome → Option (Int × Int)
  | [] => none
  | ad :: rest =>
    match locate_image ad with
    | some pos => some pos
    | none => check_for_ad rest

/-- `is_muted_on_screen` (line 126): `some true` if the mute icon is
visible, else `some false` if the volume icon is visible, else `none`. -/
def is_muted_on_screen (muteOutcome volumeOutcome : MatcherOutcome) : Option Bool :=
  if (locate_image muteOutcome).isSome then some true
  else if (locate_image volumeOutcome).isSome then some false
  else none

/-- One Windows audio session as seen through pycaw: the owning process
name (`none` when `session.Process` is `None`) and the session's
`SimpleAudioVolume` mute flag. -/
structure AudioSession where
  processName : Option String
  muteFlag : Bool
deriving DecidableEq, Repr

/-- The matching test of `_mute_via_pycaw` (line 79):
`session.Process and session.Process.name().lower() == 'spotify.exe'`.
Lowercasing is taken character by character over the name (the literal
`"spotify.exe"` is already lowercase). -/
def sessionMatches (s : AudioSession) : Bool :=
  match s.processName with
  | some n => n.data.map Char.toLower == "spotify.exe".data
  | none => false

/-- `_mute_via_pycaw` (line 72): walk the sessions in enumeration order;
on the first one whose process name matches, set its mute flag to the
target and return `True`; if none matches return `False`.  The returned
list is the session list after the call. -/
def mute_via_pycaw (muted : Bool) : List AudioSession → List AudioSession × Bool
  | [] => ([], false)
  | s :: rest =>
    if sessionMatches s then ({ s with muteFlag := muted } :: rest, true)
    else
      let r := mute_via_pycaw muted rest
      (s :: r.1, r.2)

/-- The mutable fields of the `MuteAd` thread object (lines 199-203). -/
structure MuteAd where
  program_running : Bool
  running : Bool
  muted : Bool
deriving DecidableEq, Repr

/-- `MuteAd.__init__` (line 199): `program_running = True`,
`running = False`, `_muted = False`. -/
def MuteAd.init : MuteAd := ⟨true, false, false⟩

/-- `MuteAd.SLEEP_AD_ACTIVE` (line 196): 0.5 seconds. -/
def MuteAd.SLEEP_AD_ACTIVE : ℚ := 0.5

/-- `MuteAd.SLEEP_AD_IDLE` (line 197): 5.0 seconds. -/
def MuteAd.SLEEP_AD_IDLE : ℚ := 5.0

/-- The environment of one iteration of the `run` loop: the matcher
outcome for each ad template (in priority order), the outcomes for the
mute and volume icon templates, and the success value `set_spotify_mute`
returns if invoked this cycle (at most one call happens per cycle). -/
structure CycleInput where
  adOutcomes : List MatcherOutcome
  muteIcon : MatcherOutcome
  volumeIcon : MatcherOutcome
  actuatorOk : Bool
deriving DecidableEq, Repr

/-- The reconciliation block (lines 215-218): if the screen shows a
definite mute state that differs from `_muted`, adopt it. -/
def reconcileMuted (cur : Bool) (screen_muted : Option Bool) : Bool :=
  match screen_muted with
  | some b => if b ≠ cur then b else cur
  | none => cur

/-- The transition block of one enabled cycle (lines 220-234), after
reconciliation: given the believed mute state, whether an ad was detected
and the actuator's success value, return the new believed mute state, the
targets of the actuator calls issued (in order) and the slept interval. -/
def transStep (muted adPresent actuatorOk : Bool) : Bool × List Bool × ℚ :=
  if adPresent then
    if !muted then
      ((if actuatorOk then true else muted), [true], MuteAd.SLEEP_AD_ACTIVE)
    else
      (muted, [], MuteAd.SLEEP_AD_ACTIVE)
  else
    if muted then
      ((if actuatorOk then false else muted), [false], MuteAd.SLEEP_AD_IDLE)
    else
      (muted, [], MuteAd.SLEEP_AD_IDLE)

/-- Result of one iteration of the `run` while-loop: successor state, the
actuator-call targets issued during the iteration, and the interval passed
to `time.sleep`. -/
structure CycleResult where
  state : MuteAd
  calls : List Bool
  sleep : ℚ
deriving DecidableEq, Repr

/-- One iteration of the body of `MuteAd.run` (lines 206-234), taken with
`program_running` true.  When `running` is false the iteration only sleeps
0.2 s; otherwise it scans for ads, reconciles the believed mute state with
the on-screen icon state, and mutes/unmutes on disagreement between ad
presence and believed mute state. -/
def MuteAd.runCycle (s : MuteAd) (inp : CycleInput) : CycleResult :=
  if !s.running then
    { state := s, calls := [], sleep := 0.2 }
  else
    let ad_pos := check_for_ad inp.adOutcomes
    let screen_muted := is_muted_on_screen inp.muteIcon inp.volumeIcon
    let m1 := reconcileMuted s.muted screen_muted
    let r := transStep m1 ad_pos.isSome inp.actuatorOk
    { state := { s with muted := r.1 }, calls := r.2.1, sleep := r.2.2 }

/-- Iterate `runCycle` over a finite list of per-cycle environments,
collecting all actuator-call targets in order. -/
def MuteAd.runTrace (s : MuteAd) : List CycleInput → MuteAd × List Bool
  | [] => (s, [])
  | i :: rest =>
    let r := s.runCycle i
    let p := r.state.runTrace rest
    (p.1, r.calls ++ p.2)

/-- `MuteAd.stop` (line 236): clear both lifecycle flags, and if `_muted`
is set issue one unmute call (its success value is ignored) and clear
`_muted`.  Returns the new state and the targets of the actuator calls
issued. -/
def MuteAd.stop (s : MuteAd) : MuteAd × List Bool :=
  let s1 : MuteAd := { s with running := false, program_running := false }
  if s1.muted then ({ s1 with muted := false }, [false]) else (s1, [])

/-- Ad presence sampled in one cycle: whether any ad template matched. -/
def adPresent (i : CycleInput) : Bool :=
  (check_for_ad i.adOutcomes).isSome

/-- The screen observation of one cycle. -/
def screenObs (i : CycleInput) : Option Bool :=
  is_muted_on_screen i.muteIcon i.volumeIcon

/-- Number standing for the claim's words, not for the code: the number of
false-to-true edges of the per-cycle ad-presence sample occurring while
Believed Mute State is false.  `prev` is the previous cycle's ad-presence
sample (taken as `false` before the first cycle of a fresh run); the
believed state consulted is the one in force at the cycle's decision
point, i.e. after that cycle's reconciliation step, and the state is
advanced with the controller's own cycle function. -/
def specTrueEdgeCount : MuteAd → Bool → List CycleInput → Nat
  | _, _, [] => 0
  | s, prev, i :: rest =>
    let believed := reconcileMuted s.muted (screenObs i)
    (if s.running && adPresent i && !prev && !believed then 1 else 0) +
      specTrueEdgeCount (s.runCycle i).state (adPresent i) rest

/-- Spec-words counterpart for unmute calls: true-to-false edges of the
ad-presence sample occurring while Believed Mute State is true. -/
def specFalseEdgeCount : MuteAd → Bool → List CycleInput → Nat
  | _, _, [] => 0
  | s, prev, i :: rest =>
    let believed := reconcileMuted s.muted (screenObs i)
    (if s.running && !(adPresent i) && prev && believed then 1 else 0) +
      specFalseEdgeCount (s.runCycle i).state (adPresent i) rest

/-! ## Basic cycle lemmas -/

theorem runCycle_paused (s : MuteAd) (inp : CycleInput) (h : s.running = false) :
    s.runCycle inp = { state := s, calls := [], sleep := 0.2 } := by
  simp [MuteAd.runCycle, h]

theorem runCycle_enabled (s : MuteAd) (inp : CycleInput) (h : s.running = true) :
    s.runCycle inp =
      { state := { s with muted :=
            (transStep (reconcileMuted s.muted (screenObs inp)) (adPresent inp) inp.actuatorOk).1 },
        calls := (transStep (reconcileMuted s.muted (screenObs inp)) (adPresent inp) inp.actuatorOk).2.1,
        sleep := (transStep (reconcileMuted s.muted (screenObs inp)) (adPresent inp) inp.actuatorOk).2.2 } := by
  simp [MuteAd.runCycle, h, screenObs, adPresent]

theorem runCycle_running_inv (s : MuteAd) (inp : CycleInput) :
    (s.runCycle inp).state.running = s.running ∧
      (s.runCycle inp).state.program_running = s.program_running := by
  cases h : s.running
  · simp [runCycle_paused s inp h, h]
  · simp [runCycle_enabled s inp h, h]

/-- Shape of an enabled cycle whose screen observation is `none` and whose
actuator succeeds: the believed mute state becomes the ad sample, one call
is issued exactly when they disagreed. -/
theorem runCycle_none_ok (s : MuteAd) (inp : CycleInput) (h : s.running = true)
    (hobs : screenObs inp = none) (hok : inp.actuatorOk = true) :
    s.runCycle inp =
      { state := { s with muted := adPresent inp },
        calls := if s.muted = adPresent inp then [] else [adPresent inp],
        sleep := if adPresent inp then MuteAd.SLEEP_AD_ACTIVE else MuteAd.SLEEP_AD_IDLE } := by
  rw [runCycle_enabled s inp h, hobs]
  cases hm : s.muted <;> cases ha : adPresent inp <;>
    simp [reconcileMuted, transStep, hok]

/-- Counting invariant behind C1: on a run of enabled cycles in which the
screen observation is always `none` and every actuator call succeeds, the
believed mute state entering each cycle equals the previous cycle's ad
sample, and the mute/unmute call counts equal the spec's edge counts. -/
theorem runTrace_count_eq_spec (trace : List CycleInput) :
    ∀ (s : MuteAd) (prev : Bool), s.running = true → s.muted = prev →
      (∀ i ∈ trace, i.actuatorOk = true ∧ screenObs i = none) →
      (s.runTrace trace).2.count true = specTrueEdgeCount s prev trace ∧
        (s.runTrace trace).2.count false = specFalseEdgeCount s prev trace := by
  induction trace with
  | nil =>
    intro s prev _ _ _
    simp [MuteAd.runTrace, specTrueEdgeCount, specFalseEdgeCount]
  | cons i rest ih =>
    intro s prev hr hm hgood
    obtain ⟨hok, hobs⟩ := hgood i (List.mem_cons_self i rest)
    have hrest : ∀ j ∈ rest, j.actuatorOk = true ∧ screenObs j = none :=
      fun j hj => hgood j (List.mem_cons_of_mem i hj)
    have ih' := ih { s with muted := adPresent i } (adPresent i) hr rfl hrest
    simp only [MuteAd.runTrace, specTrueEdgeCount, specFalseEdgeCount,
      runCycle_none_ok s i hr hobs hok, hobs, reconcileMuted, List.count_append]
    rw [ih'.1, ih'.2]
    subst hm
    cases hmv : s.muted <;> cases hp : adPresent i <;>
      simp [hmv, hp, hr, List.count_cons]

/-- Calls issued by the transition block: exactly one call, whose target
is the ad sample, when the ad sample and the believed mute state disagree;
none when they agree. -/
theorem transStep_calls (m a ok : Bool) : (transStep m a ok).2.1 = if a = m then [] else [a] := by
  cases m <;> cases a <;> simp [transStep]

/-- On actuator failure the transition block leaves the believed mute
state unchanged. -/
theorem transStep_fail_muted (m a : Bool) : (transStep m a false).1 = m := by
  cases m <;> cases a <;> simp [transStep]

/-- The slept interval chosen by the transition block. -/
theorem transStep_sleep (m a ok : Bool) :
    (transStep m a ok).2.2 = if a then MuteAd.SLEEP_AD_ACTIVE else MuteAd.SLEEP_AD_IDLE := by
  cases m <;> cases a <;> simp [transStep]

/-! ## Claim C1 -/

/-- Trace refuting C1 as stated: the controller is started, no icon ever
matches, and the single ad template is absent, then present with the
actuator failing, then present with the actuator succeeding. -/
def c1FailTrace : List CycleInput :=
  [⟨[.notFound], .notFound, .notFound, true⟩,
   ⟨[.found 10 20], .notFound, .notFound, false⟩,
   ⟨[.found 10 20], .notFound, .notFound, true⟩]

/-- C1 is false as stated: on `c1FailTrace` the controller issues two
actuator calls with target true (the failed call is retried), while the
ad-presence sample has exactly one false-to-true edge occurring while
Believed Mute State is false. -/
theorem c1_counterexample :
    ((MuteAd.mk true true false).runTrace c1FailTrace).2.count true = 2 ∧
      specTrueEdgeCount (MuteAd.mk true true false) false c1FailTrace = 1 := by
  decide

/-- C1 (amended): provided every cycle's screen observation is Unknown
and every actuator call succeeds, the number of actuator calls with
target true equals the number of false-to-true edges of the ad-presence
sample occurring while Believed Mute State is false, the number with
target false equals the number of true-to-false edges occurring while
Believed Mute State is true (previous sample taken to be the starting
believed state, `false` for a fresh controller), and a cycle whose
reconciled believed state agrees with its ad sample issues no call. -/
theorem c1_call_counts_match_edges (s : MuteAd) (trace : List CycleInput) (inp : CycleInput)
    (hr : s.running = true)
    (hgood : ∀ i ∈ trace, i.actuatorOk = true ∧ screenObs i = none) :
    (s.runTrace trace).2.count true = specTrueEdgeCount s s.muted trace ∧
      (s.runTrace trace).2.count false = specFalseEdgeCount s s.muted trace ∧
      (reconcileMuted s.muted (screenObs inp) = adPresent inp →
        (s.runCycle inp).calls = []) := by
  obtain ⟨h1, h2⟩ := runTrace_count_eq_spec trace s s.muted hr rfl hgood
  refine ⟨h1, h2, fun hagree => ?_⟩
  rw [runCycle_enabled s inp hr]
  simp [transStep_calls, hagree]

/-- The scenario of spec §8: one ad-present cycle then one ad-absent
cycle, icons never matching, actuator succeeding. -/
def c1WitnessTrace : List CycleInput :=
  [⟨[.found 1 2], .notFound, .notFound, true⟩,
   ⟨[.notFound], .notFound, .notFound, true⟩]

/-- An enabled cycle with no ad and believed state false: agreement. -/
def c1AgreeInput : CycleInput := ⟨[.notFound], .notFound, .notFound, true⟩

theorem c1_call_counts_witness :
    ((MuteAd.mk true true false).runTrace c1WitnessTrace).2.count true =
        specTrueEdgeCount (MuteAd.mk true true false) false c1WitnessTrace ∧
      ((MuteAd.mk true true false).runTrace c1WitnessTrace).2.count false =
        specFalseEdgeCount (MuteAd.mk true true false) false c1WitnessTrace ∧
      ((MuteAd.mk true true false).runCycle c1AgreeInput).calls = [] :=
  ⟨(c1_call_counts_match_edges (MuteAd.mk true true false) c1WitnessTrace c1AgreeInput rfl
      (by decide)).1,
   (c1_call_counts_match_edges (MuteAd.mk true true false) c1WitnessTrace c1AgreeInput rfl
      (by decide)).2.1,
   (c1_call_counts_match_edges (MuteAd.mk true true false) c1WitnessTrace c1AgreeInput rfl
      (by decide)).2.2 (by decide)⟩

/-! ## Claim C2 -/

/-- C2: when `stop` is invoked while Believed Mute State is true, exactly
one actuator call with target false is issued and Believed Mute State
becomes false; the embedding of `stop` discards the call's success value
exactly as the source does, so this holds regardless of whether the call
reports success.  Both lifecycle flags are also cleared. -/
theorem c2_stop_unmutes (s : MuteAd) (h : s.muted = true) :
    (s.stop).2 = [false] ∧ (s.stop).1.muted = false ∧
      (s.stop).1.running = false ∧ (s.stop).1.program_running = false := by
  simp [MuteAd.stop, h]

theorem c2_stop_unmutes_witness :
    ((MuteAd.mk true true true).stop).2 = [false] ∧
      ((MuteAd.mk true true true).stop).1.muted = false ∧
      ((MuteAd.mk true true true).stop).1.running = false ∧
      ((MuteAd.mk true true true).stop).1.program_running = false :=
  c2_stop_unmutes (MuteAd.mk true true true) rfl

/-! ## Claim C3 -/

/-- C3: on an enabled cycle whose screen observation is a definite value
`b` differing from the believed mute state, the reconciliation step adopts
`b`, and the cycle's actuator calls and any further belief change are
exactly those of the transition block run from `b` — the reconciliation
step itself invokes no actuator. -/
theorem c3_reconcile_adopts (s : MuteAd) (inp : CycleInput) (b : Bool)
    (hr : s.running = true) (hobs : screenObs inp = some b) (hne : b ≠ s.muted) :
    reconcileMuted s.muted (screenObs inp) = b ∧
      (s.runCycle inp).calls = (transStep b (adPresent inp) inp.actuatorOk).2.1 ∧
      (s.runCycle inp).state.muted = (transStep b (adPresent inp) inp.actuatorOk).1 := by
  have h1 : reconcileMuted s.muted (screenObs inp) = b := by
    rw [hobs]; simp [reconcileMuted, hne]
  refine ⟨h1, ?_, ?_⟩ <;> rw [runCycle_enabled s inp hr, h1]

/-- Enabled cycle observing the mute icon while believing unmuted. -/
def c3Input : CycleInput := ⟨[.notFound], .found 5 6, .notFound, true⟩

theorem c3_reconcile_adopts_witness :
    reconcileMuted (MuteAd.mk true true false).muted (screenObs c3Input) = true ∧
      ((MuteAd.mk true true false).runCycle c3Input).calls =
        (transStep true (adPresent c3Input) c3Input.actuatorOk).2.1 ∧
      ((MuteAd.mk true true false).runCycle c3Input).state.muted =
        (transStep true (adPresent c3Input) c3Input.actuatorOk).1 :=
  c3_reconcile_adopts (MuteAd.mk true true false) c3Input true rfl (by decide) (by decide)

/-! ## Claim C4 -/

/-- C4: if the actuator fails on a cycle (screen observation Unknown, so
only the transition step touches the believed state), the believed mute
state is unchanged by that cycle, and on a next enabled cycle in which the
same triggering condition holds the same single call is attempted again. -/
theorem c4_failure_retries (s : MuteAd) (inp inp2 : CycleInput)
    (hr : s.running = true) (hobs : screenObs inp = none) (hobs2 : screenObs inp2 = none)
    (hfail : inp.actuatorOk = false) :
    (s.runCycle inp).state.muted = s.muted ∧
      (adPresent inp2 = true → s.muted = false →
        ((s.runCycle inp).state.runCycle inp2).calls = [true]) ∧
      (adPresent inp2 = false → s.muted = true →
        ((s.runCycle inp).state.runCycle inp2).calls = [false]) := by
  have hkeep : (s.runCycle inp).state.muted = s.muted := by
    rw [runCycle_enabled s inp hr, hobs, hfail]
    simp [reconcileMuted, transStep_fail_muted]
  have hr2 : (s.runCycle inp).state.running = true := by
    rw [(runCycle_running_inv s inp).1, hr]
  refine ⟨hkeep, fun ha hm => ?_, fun ha hm => ?_⟩ <;>
    rw [runCycle_enabled _ inp2 hr2, hobs2] <;>
    simp [reconcileMuted, transStep_calls, hkeep, hm, ha]

/-- Ad present, actuator fails. -/
def c4FailInput : CycleInput := ⟨[.found 1 2], .notFound, .notFound, false⟩

/-- Ad still present on the next cycle, actuator available again. -/
def c4RetryInput : CycleInput := ⟨[.found 1 2], .notFound, .notFound, true⟩

theorem c4_failure_retries_witness :
    ((MuteAd.mk true true false).runCycle c4FailInput).state.muted =
        (MuteAd.mk true true false).muted ∧
      (((MuteAd.mk true true false).runCycle c4FailInput).state.runCycle c4RetryInput).calls =
        [true] :=
  ⟨(c4_failure_retries (MuteAd.mk true true false) c4FailInput c4RetryInput rfl
      (by decide) (by decide) rfl).1,
   (c4_failure_retries (MuteAd.mk true true false) c4FailInput c4RetryInput rfl
      (by decide) (by decide) rfl).2.1 (by decide) rfl⟩

/-! ## Claim C5 -/

/-- C5: an exception raised by the matching primitive is caught inside
`locate_image` and becomes `none`; at every use site (`check_for_ad` on
any template, either icon check of `is_muted_on_screen`) a raising call
behaves exactly like a plain miss; and no cycle of the polling loop,
whatever its matcher outcomes, ever changes `program_running`, so the
loop never terminates because of a matcher error. -/
theorem c5_matcher_errors_are_misses :
    locate_image .raises = none ∧
      (∀ outs, check_for_ad (.raises :: outs) = check_for_ad outs) ∧
      (∀ v, is_muted_on_screen .raises v = is_muted_on_screen .notFound v) ∧
      (∀ m, is_muted_on_screen m .raises = is_muted_on_screen m .notFound) ∧
      (∀ (s : MuteAd) (inp : CycleInput),
        (s.runCycle inp).state.program_running = s.program_running) := by
  refine ⟨rfl, fun outs => ?_, fun v => ?_, fun m => ?_,
    fun s inp => (runCycle_running_inv s inp).2⟩
  · simp [check_for_ad, locate_image]
  · simp [is_muted_on_screen, locate_image]
  · simp [is_muted_on_screen, locate_image]

/-! ## Claim C6 -/

/-- C6: an enabled cycle sleeps `SLEEP_AD_ACTIVE` exactly when its ad
sample is true and `SLEEP_AD_IDLE` exactly when it is false; a paused
cycle is independent of every matcher outcome (no detection work), issues
no call and sleeps the fixed 0.2 s interval. -/
theorem c6_cadence (s : MuteAd) (inp inp2 : CycleInput) :
    (s.running = true →
      (((s.runCycle inp).sleep = MuteAd.SLEEP_AD_ACTIVE) ↔ adPresent inp = true) ∧
      (((s.runCycle inp).sleep = MuteAd.SLEEP_AD_IDLE) ↔ adPresent inp = false)) ∧
    (s.running = false →
      s.runCycle inp = s.runCycle inp2 ∧ (s.runCycle inp).sleep = 0.2 ∧
        (s.runCycle inp).calls = []) := by
  have hne : MuteAd.SLEEP_AD_ACTIVE ≠ MuteAd.SLEEP_AD_IDLE := by
    rw [MuteAd.SLEEP_AD_ACTIVE, MuteAd.SLEEP_AD_IDLE]; norm_num
  constructor
  · intro hr
    rw [runCycle_enabled s inp hr]
    simp only [transStep_sleep]
    cases ha : adPresent inp <;> simp [hne, Ne.symm hne]
  · intro hp
    rw [runCycle_paused s inp hp, runCycle_paused s inp2 hp]
    exact ⟨rfl, rfl, rfl⟩

/-- Enabled cycle with an ad on screen. -/
def c6AdInput : CycleInput := ⟨[.found 1 2], .notFound, .notFound, true⟩

/-- Enabled cycle with no ad on screen. -/
def c6NoAdInput : CycleInput := ⟨[.notFound], .notFound, .notFound, true⟩

theorem c6_cadence_witness :
    ((((MuteAd.mk true true false).runCycle c6AdInput).sleep = MuteAd.SLEEP_AD_ACTIVE) ↔
        adPresent c6AdInput = true) ∧
      (MuteAd.mk true false false).runCycle c6AdInput =
        (MuteAd.mk true false false).runCycle c6NoAdInput ∧
      ((MuteAd.mk true false false).runCycle c6AdInput).sleep = 0.2 :=
  ⟨((c6_cadence (MuteAd.mk true true false) c6AdInput c6NoAdInput).1 rfl).1,
   ((c6_cadence (MuteAd.mk true false false) c6AdInput c6NoAdInput).2 rfl).1,
   ((c6_cadence (MuteAd.mk true false false) c6AdInput c6NoAdInput).2 rfl).2.1⟩

/-! ## Claim C7 -/

/-- C7 is false in its degradation clause: an absent muted template makes
its matcher call raise, which `locate_image` turns into a miss, after
which the volume icon can still match — the observation is Unmuted, not
Unknown. -/
theorem c7_counterexample :
    is_muted_on_screen .raises (.found 3 4) = some false ∧
      is_muted_on_screen .raises (.found 3 4) ≠ none := by
  decide

/-- C7 (amended): the observation checks the muted template first and
returns Muted (`some true`) if it matches, else returns Unmuted
(`some false`) if the unmuted template matches, else Unknown (`none`); it
is a pure function of the two matcher outcomes.  Only when BOTH icon
checks miss (template absent — a raising call — or simply not matching)
is the result Unknown, and an Unknown observation leaves the believed
mute state untouched, so with both templates absent the reconciliation
step never fires. -/
theorem c7_icon_priority :
    (∀ (x y : Int) (v : MatcherOutcome), is_muted_on_screen (.found x y) v = some true) ∧
      (∀ x y : Int, is_muted_on_screen .notFound (.found x y) = some false) ∧
      (∀ x y : Int, is_muted_on_screen .raises (.found x y) = some false) ∧
      is_muted_on_screen .notFound .notFound = none ∧
      is_muted_on_screen .notFound .raises = none ∧
      is_muted_on_screen .raises .notFound = none ∧
      is_muted_on_screen .raises .raises = none ∧
      (∀ c : Bool, reconcileMuted c none = c) :=
  ⟨fun _ _ _ => rfl, fun _ _ => rfl, fun _ _ => rfl, rfl, rfl, rfl, rfl, fun _ => rfl⟩

/-! ## Claim C8 -/

/-- C8: on an enabled cycle whose observation is Muted (`some true`), the
controller issues no call with target true, even when an ad is present:
reconciliation adopts the observed muted state before the transition
decision. -/
theorem c8_observed_mute_suppresses (s : MuteAd) (inp : CycleInput)
    (hr : s.running = true) (hobs : screenObs inp = some true) :
    ((s.runCycle inp).calls).count true = 0 := by
  have h1 : reconcileMuted s.muted (some true) = true := by
    cases hm : s.muted <;> simp [reconcileMuted]
  rw [runCycle_enabled s inp hr, hobs]
  simp only [h1, transStep_calls]
  cases ha : adPresent inp <;> simp

/-- Ad present and mute icon visible in the same cycle. -/
def c8Input : CycleInput := ⟨[.found 1 2], .found 0 0, .notFound, true⟩

theorem c8_observed_mute_suppresses_witness :
    (((MuteAd.mk true true false).runCycle c8Input).calls).count true = 0 :=
  c8_observed_mute_suppresses (MuteAd.mk true true false) c8Input rfl (by decide)

/-! ## Claim C9 -/

/-- C9: `stop` is idempotent — a second `stop` changes nothing, issues no
actuator call, and the post-`stop` state has believed mute state false and
both lifecycle flags false; stopping the freshly constructed (stopped,
never-muted) controller issues no call at all. -/
theorem c9_stop_idempotent (s : MuteAd) :
    ((s.stop).1.stop).1 = (s.stop).1 ∧ ((s.stop).1.stop).2 = [] ∧
      (s.stop).1.muted = false ∧ (s.stop).1.running = false ∧
      (s.stop).1.program_running = false ∧ (MuteAd.init.stop).2 = [] := by
  cases hm : s.muted <;> simp [MuteAd.stop, MuteAd.init, hm]

/-! ## Claim C10 -/

/-- C10: `_mute_via_pycaw` reports success exactly when some session's
process name matches; every session other than the first matching one
(the one at `findIdx sessionMatches`) is returned unmodified; the first
matching session is returned with only its mute flag set to the target;
and when no session matches the session list is returned entirely
unchanged with result `false`. -/
theorem c10_pycaw_frame (m : Bool) (ss : List AudioSession) :
    ((mute_via_pycaw m ss).2 = ss.any sessionMatches) ∧
      (∀ j : Nat, j ≠ ss.findIdx sessionMatches →
        (mute_via_pycaw m ss).1[j]? = ss[j]?) ∧
      (ss.any sessionMatches = true →
        (mute_via_pycaw m ss).1[ss.findIdx sessionMatches]? =
          ss[ss.findIdx sessionMatches]?.map fun t => { t with muteFlag := m }) ∧
      (ss.any sessionMatches = false → mute_via_pycaw m ss = (ss, false)) := by
  induction ss with
  | nil =>
    exact ⟨rfl, fun j _ => rfl, fun h => by simp at h, fun _ => rfl⟩
  | cons a rest ih =>
    obtain ⟨ih1, ih2, ih3, ih4⟩ := ih
    cases hmatch : sessionMatches a
    · have hidx : (a :: rest).findIdx sessionMatches = rest.findIdx sessionMatches + 1 := by
        simp [List.findIdx_cons, hmatch]
      have hval : mute_via_pycaw m (a :: rest) =
          (a :: (mute_via_pycaw m rest).1, (mute_via_pycaw m rest).2) := by
        simp [mute_via_pycaw, hmatch]
      have hany : (a :: rest).any sessionMatches = rest.any sessionMatches := by
        simp [hmatch]
      refine ⟨?_, ?_, ?_, ?_⟩
      · rw [hval, hany]; exact ih1
      · intro j hj
        rw [hval, hidx] at *
        cases j with
        | zero => simp
        | succ j' =>
          have : j' ≠ rest.findIdx sessionMatches := fun h => hj (by rw [h])
          simpa using ih2 j' this
      · intro h
        rw [hval, hidx]
        have hr : rest.any sessionMatches = true := by rwa [hany] at h
        simpa using ih3 hr
      · intro h
        rw [hany] at h
        rw [hval, ih4 h]
    · have hidx : (a :: rest).findIdx sessionMatches = 0 := by
        simp [List.findIdx_cons, hmatch]
      have hval : mute_via_pycaw m (a :: rest) =
          ({ a with muteFlag := m } :: rest, true) := by
        simp [mute_via_pycaw, hmatch]
      refine ⟨?_, ?_, ?_, ?_⟩
      · rw [hval]; simp [hmatch]
      · intro j hj
        rw [hval, hidx] at *
        cases j with
        | zero => exact absurd rfl hj
        | succ j' => rfl
      · intro _
        rw [hval, hidx]
        simp
      · intro h
        simp [hmatch] at h

/-- Concrete session list: the match is the second session
("Spotify.exe", case-insensitively equal to "spotify.exe"). -/
def c10Sessions : List AudioSession :=
  [⟨some "chrome.exe", false⟩, ⟨some "Spotify.exe", false⟩,
   ⟨some "spotify.exe", true⟩, ⟨none, false⟩]

/-- Concrete session list with no matching session. -/
def c10NoMatchSessions : List AudioSession :=
  [⟨some "chrome.exe", false⟩, ⟨none, true⟩]

theorem c10_pycaw_frame_witness :
    ((mute_via_pycaw true c10Sessions).2 = c10Sessions.any sessionMatches) ∧
      (mute_via_pycaw true c10Sessions).1[0]? = c10Sessions[0]? ∧
      (mute_via_pycaw true c10Sessions).1[2]? = c10Sessions[2]? ∧
      ((mute_via_pycaw true c10Sessions).1[c10Sessions.findIdx sessionMatches]? =
        c10Sessions[c10Sessions.findIdx sessionMatches]?.map
          fun t => { t with muteFlag := true }) ∧
      mute_via_pycaw true c10NoMatchSessions = (c10NoMatchSessions, false) :=
  ⟨(c10_pycaw_frame true c10Sessions).1,
   (c10_pycaw_frame true c10Sessions).2.1 0 (by decide),
   (c10_pycaw_frame true c10Sessions).2.1 2 (by decide),
   (c10_pycaw_frame true c10Sessions).2.2.1 (by decide),
   (c10_pycaw_frame true c10NoMatchSessions).2.2.2 (by decide)⟩
